import Mathlib

/-!
Verification of the gesture-service core: a shallow embedding of the
landmark buffer, the PCA and ML dynamic-gesture buffer processors, the
pipeline hold/debounce state machine, the WebSocket connection manager
and the server's bridge callbacks, translated from the Python sources
under src/gesture_service, together with theorems settling the spec's
claims about them.

Python floats are modelled as exact rationals; `math.sqrt` is modelled
by `ratSqrt`, which is exact on rationals whose numerator and
denominator are perfect squares (every square-root taken on the code
paths proved about here falls in that class).
-/

set_option maxHeartbeats 1000000

/-- Python runtime errors that the modelled code can raise. -/
inductive PyErr where
  | indexError
  | attributeError
  | typeError
  | connectionClosed
deriving DecidableEq, Repr

/-- Model of `classes.Landmark`: one tracked hand point (`id`, `x`, `y`).  The
dataclass annotates `x`/`y` as `int` but the pipeline stores normalized
floating-point coordinates in them; both are modelled as `ℚ`. -/
structure Landmark where
  id : Nat
  x : ℚ
  y : ℚ
deriving DecidableEq, Repr

/-- Model of `classes.LandmarkFrame` exactly as declared in
`src/detection/hand_tracking/common/classes.py` (lines 12-16): fields
`landmarks`, `timestamp`, `static_gesture` and nothing else — in
particular no `landmark_centroid` field. -/
structure LandmarkFrame where
  landmarks : List Landmark
  timestamp : ℚ
  static_gesture : String × ℚ
deriving DecidableEq, Repr

/-- The frame shape consumed by the buffer processors: the fields of
`classes.LandmarkFrame` plus the `landmark_centroid` attribute that
`test.py` passes at construction and `pca_buffer_processor.py` reads
(`frame.landmark_centroid`). -/
structure BufferFrame where
  landmarks : List Landmark
  landmark_centroid : Option (ℚ × ℚ)
  timestamp : ℚ
  static_gesture : String × ℚ
deriving DecidableEq, Repr

/-- Model of `DynamicGestureDetection` from `buffer_processors/base.py`. -/
structure DynamicGestureDetection where
  label : String
  confidence : ℚ
  start_time : ℚ
  end_time : ℚ
  label_index : Nat
  probabilities : List ℚ
deriving DecidableEq, Repr

namespace LandmarkBuffer

/-- Model of `LandmarkBuffer.enqueue` (landmark_buffer.py lines 13-16): when the
buffer has reached `bufferSize`, `self._buffer.pop(0)` runs before the
append; `list.pop(0)` on an empty list (possible only when
`bufferSize = 0`) raises `IndexError`. -/
def enqueue {α : Type} (bufferSize : Nat) (buffer : List α) (f : α) :
    Except PyErr (List α) :=
  if bufferSize ≤ buffer.length then
    match buffer with
    | [] => .error .indexError
    | _ :: rest => .ok (rest ++ [f])
  else
    .ok (buffer ++ [f])

/-- One attempted `enqueue` call: a call that raises leaves the buffer
unchanged. -/
def enqueueStep {α : Type} (bufferSize : Nat) (buffer : List α) (f : α) :
    List α :=
  match enqueue bufferSize buffer f with
  | .ok b => b
  | .error _ => buffer

/-- A sequence of `enqueue` calls against a buffer constructed with
capacity `bufferSize`, starting from the empty buffer produced by
`__init__`. -/
def enqueueAll {α : Type} (bufferSize : Nat) (fs : List α) : List α :=
  fs.foldl (enqueueStep bufferSize) []

end LandmarkBuffer

lemma enqueueStep_drop {α : Type} (N : Nat) (fs : List α) (f : α) :
    LandmarkBuffer.enqueueStep N (fs.drop (fs.length - N)) f
      = (fs ++ [f]).drop ((fs ++ [f]).length - N) := by
  have hlen : (fs.drop (fs.length - N)).length = fs.length - (fs.length - N) :=
    List.length_drop _ _
  unfold LandmarkBuffer.enqueueStep LandmarkBuffer.enqueue
  rcases Nat.eq_zero_or_pos N with hN | hN
  · subst hN
    have h1 : fs.drop (fs.length - 0) = [] := by
      simp [List.drop_length]
    rw [h1]
    simp [List.drop_length]
  · by_cases hle : fs.length < N
    · -- not yet full: plain append
      have hsub : fs.length - N = 0 := Nat.sub_eq_zero_of_le (Nat.le_of_lt hle)
      have hsub2 : (fs ++ [f]).length - N = 0 := by
        simp only [List.length_append, List.length_cons, List.length_nil]
        omega
      rw [hsub, hsub2]
      simp only [List.drop_zero]
      have hcond : ¬ N ≤ fs.length := by omega
      simp [hcond]
    · -- at (or beyond) capacity: pop the head, then append
      push_neg at hle
      have hfull : (fs.drop (fs.length - N)).length = N := by
        rw [hlen]; omega
      have hcond : N ≤ (fs.drop (fs.length - N)).length := le_of_eq hfull.symm
      have hne : fs.drop (fs.length - N) ≠ [] := by
        intro h
        rw [h] at hfull
        simp at hfull
        omega
      simp only [if_pos hcond]
      rcases hd : fs.drop (fs.length - N) with _ | ⟨a, rest⟩
      · exact absurd hd hne
      · have htail : rest = fs.drop (fs.length - N + 1) := by
          have := List.tail_drop fs (fs.length - N)
          rw [hd] at this
          have h2 : List.drop (fs.length - N + 1) fs = rest := by
            simpa using this.symm
          exact h2.symm
        have hidx : (fs ++ [f]).length - N = fs.length - N + 1 := by
          simp only [List.length_append, List.length_cons, List.length_nil]
          omega
        have hle2 : fs.length - N + 1 ≤ fs.length := by omega
        rw [htail, hidx, List.drop_append_of_le_length hle2]

lemma enqueueAll_eq_drop {α : Type} (N : Nat) (fs : List α) :
    LandmarkBuffer.enqueueAll N fs = fs.drop (fs.length - N) := by
  induction fs using List.reverseRecOn with
  | nil => simp [LandmarkBuffer.enqueueAll]
  | append_singleton fs f ih =>
      unfold LandmarkBuffer.enqueueAll at *
      rw [List.foldl_append, ih]
      simpa using enqueueStep_drop N fs f

/-- C1: for every capacity `N` and every sequence of enqueue calls made
against an initially empty `LandmarkBuffer`, `size() ≤ maxSize()` holds
after each call (every prefix of the call sequence is itself covered by
the universal quantifier), and after more than `maxSize()` enqueues the
buffer's `frames()` are exactly the most recent `maxSize()` enqueued
frames in arrival order (strict FIFO eviction of the oldest at
capacity). -/
theorem landmark_buffer_fifo_invariant {α : Type} (N : Nat) (fs : List α) :
    (LandmarkBuffer.enqueueAll N fs).length ≤ N ∧
      (N < fs.length →
        LandmarkBuffer.enqueueAll N fs = fs.drop (fs.length - N)) := by
  constructor
  · rw [enqueueAll_eq_drop]
    rw [List.length_drop]
    omega
  · intro _
    exact enqueueAll_eq_drop N fs

/-- Witness for C1 at a concrete run: capacity 2, four enqueued frames,
the buffer retains exactly the last two. -/
theorem landmark_buffer_fifo_invariant_witness :
    (LandmarkBuffer.enqueueAll 2 [(1 : ℚ), 2, 3, 4]).length ≤ 2 ∧
      LandmarkBuffer.enqueueAll 2 [(1 : ℚ), 2, 3, 4]
        = [(1 : ℚ), 2, 3, 4].drop ([(1 : ℚ), 2, 3, 4].length - 2) :=
  ⟨(landmark_buffer_fifo_invariant 2 [(1 : ℚ), 2, 3, 4]).1,
    (landmark_buffer_fifo_invariant 2 [(1 : ℚ), 2, 3, 4]).2 (by decide)⟩

/-- A concrete frame used by closed counterexamples and witnesses. -/
def sampleFrame : BufferFrame :=
  { landmarks := []
    landmark_centroid := some (0, 0)
    timestamp := 0
    static_gesture := ("", 0) }

/-- C8 counterexample: on a `LandmarkBuffer` configured with capacity 0,
the very first `enqueue` raises `IndexError` (`self._buffer.pop(0)` on
the empty list), refuting "enqueue(frame) never raises an exception"
for every configured capacity including 0. -/
theorem enqueue_capacity_zero_raises :
    LandmarkBuffer.enqueue 0 ([] : List BufferFrame) sampleFrame
      = .error .indexError := rfl

/-- C8 amended: for every capacity of at least 1, `enqueue` never
raises, on every buffer state and frame. -/
theorem enqueue_never_raises {α : Type} (N : Nat) (hN : 1 ≤ N)
    (buffer : List α) (f : α) :
    ∃ buffer', LandmarkBuffer.enqueue N buffer f = .ok buffer' := by
  unfold LandmarkBuffer.enqueue
  by_cases h : N ≤ buffer.length
  · rcases buffer with _ | ⟨a, rest⟩
    · simp at h; omega
    · refine ⟨rest ++ [f], ?_⟩
      have h' : N ≤ (a :: rest).length := h
      simp only [if_pos h']
  · exact ⟨buffer ++ [f], by simp [h]⟩

/-- Witness for C8's amended theorem at capacity 1. -/
theorem enqueue_never_raises_witness :
    ∃ buffer', LandmarkBuffer.enqueue 1 ([] : List BufferFrame) sampleFrame
      = .ok buffer' :=
  enqueue_never_raises 1 (by decide) [] sampleFrame

/-- Model of Python's `math.sqrt` on exact rationals: exact whenever the
numerator and denominator are perfect squares (every square root taken
on the code paths reasoned about below is of that form); nonnegative
arguments only arise in the source (`discriminant` is clamped at 0 and
`hypot` squares its arguments), negative arguments are mapped to 0. -/
def ratSqrt (q : ℚ) : ℚ :=
  if q < 0 then 0 else (Nat.sqrt q.num.toNat : ℚ) / (Nat.sqrt q.den : ℚ)

/-- Model of Python's `math.hypot`. -/
def ratHypot (a b : ℚ) : ℚ := ratSqrt (a * a + b * b)

lemma ratSqrt_mul_self {q : ℚ} (hq : 0 ≤ q) : ratSqrt (q * q) = q := by
  unfold ratSqrt
  have hq2 : ¬ (q * q < 0) := not_lt.mpr (mul_self_nonneg q)
  rw [if_neg hq2, Rat.mul_self_num, Rat.mul_self_den]
  have hnum : (q.num * q.num).toNat = q.num.natAbs * q.num.natAbs := by
    have h := @Int.natAbs_mul_self q.num
    omega
  rw [hnum, Nat.sqrt_eq, Nat.sqrt_eq]
  have habs : (q.num.natAbs : ℚ) = (q.num : ℚ) := by
    rw [Int.cast_natAbs]
    exact_mod_cast congrArg (fun z : ℤ => (z : ℚ))
      (abs_of_nonneg (Rat.num_nonneg.mpr hq))
  rw [habs]
  exact Rat.num_div_den q

lemma ratSqrt_one : ratSqrt 1 = 1 := by
  simpa using ratSqrt_mul_self (q := 1) (by norm_num)

/-- The fixed label tuple `PCABufferProcessor._LABELS`. -/
def pcaLabels : List String :=
  ["NONE", "SWIPE_LEFT", "SWIPE_RIGHT", "SWIPE_UP", "SWIPE_DOWN"]

/-- Source line `self._LABELS.index(label)`. -/
def pcaLabelIndex (label : String) : Nat := pcaLabels.indexOf label

/-- The probability vector built at pca_buffer_processor.py lines
112-115: five zeros, then `probabilities[0] = 1 - confidence`, then
`probabilities[label_index] = confidence` (in that order). -/
def mkProbs (confidence : ℚ) (label_index : Nat) : List ℚ :=
  ((List.replicate 5 (0 : ℚ)).set 0 (1 - confidence)).set label_index confidence

/-- Constructor parameters of `PCABufferProcessor` (with the source's
defaults; `min_total_variance` is stored but never read by `update`,
mirroring the source). -/
structure PCAParams where
  autoClear : Bool := true
  linearityThreshold : ℚ := 85 / 100
  minTotalVariance : ℚ := 25
  minDisplacement : ℚ := 2 / 10
deriving DecidableEq, Repr

/-- Source line `if self._auto_clear: self._buffer.clear()`. -/
def clearIf {α : Type} (autoClear : Bool) (buffer : List α) : List α :=
  if autoClear then [] else buffer

/-- Outcome of the centroid-analysis section of
`PCABufferProcessor.update` (lines 45-115): `noClear` is the
`denominator <= 0` early return (which does not clear the buffer),
`rejected` covers the rejections that clear under `auto_clear`
(low linearity, zero eigenvector norm, small displacement), and
`classified` carries the label, clamped confidence, label index and
probability vector of a successful classification. -/
inductive PCAStep where
  | noClear
  | rejected
  | classified (label : String) (confidence : ℚ) (label_index : Nat)
      (probabilities : List ℚ)
deriving DecidableEq, Repr

/-! Lines 45-115 of `pca_buffer_processor.py`, applied to the extracted
centroid list; each local variable of `update` becomes one named
definition over the centroid list, and `pcaEval` chains the guards. -/

/-- Source line `xs = [c[0] for c in centroids]`. -/
def pcaXs (centroids : List (ℚ × ℚ)) : List ℚ := centroids.map Prod.fst

/-- Source line `ys = [c[1] for c in centroids]`. -/
def pcaYs (centroids : List (ℚ × ℚ)) : List ℚ := centroids.map Prod.snd

/-- Source line `mean_x = sum(xs) / num_samples`. -/
def pcaMeanX (centroids : List (ℚ × ℚ)) : ℚ :=
  (pcaXs centroids).sum / (centroids.length : ℚ)

/-- Source line `mean_y = sum(ys) / num_samples`. -/
def pcaMeanY (centroids : List (ℚ × ℚ)) : ℚ :=
  (pcaYs centroids).sum / (centroids.length : ℚ)

/-- Source line `centered_x = [x - mean_x for x in xs]`. -/
def pcaCenteredX (centroids : List (ℚ × ℚ)) : List ℚ :=
  (pcaXs centroids).map (fun x => x - pcaMeanX centroids)

/-- Source line `centered_y = [y - mean_y for y in ys]`. -/
def pcaCenteredY (centroids : List (ℚ × ℚ)) : List ℚ :=
  (pcaYs centroids).map (fun y => y - pcaMeanY centroids)

/-- Source line `denominator = num_samples - 1` (as a rational divisor). -/
def pcaDenominator (centroids : List (ℚ × ℚ)) : ℚ :=
  (centroids.length : ℚ) - 1

/-- Source line `cov_xx = sum(cx * cx for cx in centered_x) / denominator`. -/
def pcaCovXX (centroids : List (ℚ × ℚ)) : ℚ :=
  ((pcaCenteredX centroids).map (fun cx => cx * cx)).sum
    / pcaDenominator centroids

/-- Source line `cov_yy = sum(cy * cy for cy in centered_y) / denominator`. -/
def pcaCovYY (centroids : List (ℚ × ℚ)) : ℚ :=
  ((pcaCenteredY centroids).map (fun cy => cy * cy)).sum
    / pcaDenominator centroids

/-- Source line `cov_xy = sum(cx * cy for cx, cy in zip(...)) / denominator`. -/
def pcaCovXY (centroids : List (ℚ × ℚ)) : ℚ :=
  (((pcaCenteredX centroids).zip (pcaCenteredY centroids)).map
      (fun c => c.1 * c.2)).sum / pcaDenominator centroids

/-- Source line `trace = cov_xx + cov_yy`. -/
def pcaTrace (centroids : List (ℚ × ℚ)) : ℚ :=
  pcaCovXX centroids + pcaCovYY centroids

/-- Source line `determinant = cov_xx * cov_yy - cov_xy * cov_xy`. -/
def pcaDeterminant (centroids : List (ℚ × ℚ)) : ℚ :=
  pcaCovXX centroids * pcaCovYY centroids
    - pcaCovXY centroids * pcaCovXY centroids

/-- Source line `discriminant = max(trace * trace - 4.0 * determinant, 0.0)`. -/
def pcaDiscriminant (centroids : List (ℚ × ℚ)) : ℚ :=
  max (pcaTrace centroids * pcaTrace centroids - 4 * pcaDeterminant centroids) 0

/-- Source line `root_term = math.sqrt(discriminant)`. -/
def pcaRootTerm (centroids : List (ℚ × ℚ)) : ℚ :=
  ratSqrt (pcaDiscriminant centroids)

/-- Source line `primary_eigenvalue = (trace + root_term) / 2.0`. -/
def pcaPrimary (centroids : List (ℚ × ℚ)) : ℚ :=
  (pcaTrace centroids + pcaRootTerm centroids) / 2

/-- Source line `secondary_eigenvalue = (trace - root_term) / 2.0`. -/
def pcaSecondary (centroids : List (ℚ × ℚ)) : ℚ :=
  (pcaTrace centroids - pcaRootTerm centroids) / 2

/-- Source line `total_variance = primary_eigenvalue + secondary_eigenvalue`. -/
def pcaTotalVariance (centroids : List (ℚ × ℚ)) : ℚ :=
  pcaPrimary centroids + pcaSecondary centroids

/-- Source line `linearity = primary / total_variance if total_variance > 0 else 0`. -/
def pcaLinearity (centroids : List (ℚ × ℚ)) : ℚ :=
  if 0 < pcaTotalVariance centroids then
    pcaPrimary centroids / pcaTotalVariance centroids
  else 0

/-- The principal eigenvector (lines 77-82): `(cov_xy, λ1 - cov_xx)`
when `abs(cov_xy) > 1e-8`, otherwise the axis of larger variance. -/
def pcaEigenvector (centroids : List (ℚ × ℚ)) : ℚ × ℚ :=
  if 1 / 100000000 < |pcaCovXY centroids| then
    (pcaCovXY centroids, pcaPrimary centroids - pcaCovXX centroids)
  else if pcaCovYY centroids ≤ pcaCovXX centroids then ((1 : ℚ), (0 : ℚ))
  else ((0 : ℚ), (1 : ℚ))

/-- Source line `norm = math.hypot(vx, vy)`. -/
def pcaNorm (centroids : List (ℚ × ℚ)) : ℚ :=
  ratHypot (pcaEigenvector centroids).1 (pcaEigenvector centroids).2

/-- Source line `delta_x = centroids[-1][0] - centroids[0][0]` (`headD`/`getLastD`
defaults are unreachable: the caller guarantees at least two frames). -/
def pcaDeltaX (centroids : List (ℚ × ℚ)) : ℚ :=
  (centroids.getLastD (0, 0)).1 - (centroids.headD (0, 0)).1

/-- Source line `delta_y = centroids[-1][1] - centroids[0][1]`. -/
def pcaDeltaY (centroids : List (ℚ × ℚ)) : ℚ :=
  (centroids.getLastD (0, 0)).2 - (centroids.headD (0, 0)).2

/-- Source line `displacement = math.hypot(delta_x, delta_y)`. -/
def pcaDisplacement (centroids : List (ℚ × ℚ)) : ℚ :=
  ratHypot (pcaDeltaX centroids) (pcaDeltaY centroids)

/-- The unit eigenvector after normalization by `norm` (lines 90-91)
and orientation against the net displacement (lines 102-104).  Rational
division is total, so the normalization is written unconditionally; it
is only consumed past the `norm == 0` guard, exactly as in the source. -/
def pcaOriented (centroids : List (ℚ × ℚ)) : ℚ × ℚ :=
  if (pcaEigenvector centroids).1 / pcaNorm centroids * pcaDeltaX centroids
      + (pcaEigenvector centroids).2 / pcaNorm centroids
        * pcaDeltaY centroids < 0 then
    (-((pcaEigenvector centroids).1 / pcaNorm centroids),
      -((pcaEigenvector centroids).2 / pcaNorm centroids))
  else
    ((pcaEigenvector centroids).1 / pcaNorm centroids,
      (pcaEigenvector centroids).2 / pcaNorm centroids)

/-- Label selection (lines 106-109) from the oriented eigenvector. -/
def pcaChosenLabel (centroids : List (ℚ × ℚ)) : String :=
  if |(pcaOriented centroids).2| < |(pcaOriented centroids).1| then
    (if 0 < (pcaOriented centroids).1 then "SWIPE_RIGHT" else "SWIPE_LEFT")
  else (if 0 < (pcaOriented centroids).2 then "SWIPE_DOWN" else "SWIPE_UP")

/-- Source line `confidence = max(0.0, min(1.0, linearity))`. -/
def pcaConfidence (centroids : List (ℚ × ℚ)) : ℚ :=
  max 0 (min 1 (pcaLinearity centroids))

/-- Lines 45-115 of `pca_buffer_processor.py` as a guard chain over the
extracted centroid list: the `denominator <= 0` early return (no
clear), the linearity gate, the zero-norm gate, the displacement gate,
then classification. -/
def pcaEval (p : PCAParams) (centroids : List (ℚ × ℚ)) : PCAStep :=
  if (centroids.length : ℤ) - 1 ≤ 0 then .noClear
  else if pcaLinearity centroids < p.linearityThreshold then .rejected
  else if pcaNorm centroids = 0 then .rejected
  else if pcaDisplacement centroids < p.minDisplacement then .rejected
  else
    .classified (pcaChosenLabel centroids) (pcaConfidence centroids)
      (pcaLabelIndex (pcaChosenLabel centroids))
      (mkProbs (pcaConfidence centroids)
        (pcaLabelIndex (pcaChosenLabel centroids)))

/-- Model of `PCABufferProcessor.update` (lines 31-129): the buffer-fullness and
two-frame preconditions, the missing-centroid gate, then the centroid
analysis of `pcaEval`; the returned pair is (detection, buffer state on
return).  The successful branch clears under `auto_clear` and returns a
`DynamicGestureDetection` carrying the first and last frame
timestamps. -/
def pcaUpdate (p : PCAParams) (maxSize : Nat) (buffer : List BufferFrame) :
    Option DynamicGestureDetection × List BufferFrame :=
  if buffer.length < maxSize then (none, buffer)
  else if buffer.length < 2 then (none, buffer)
  else if (buffer.map (fun f => f.landmark_centroid)).any Option.isNone then
    (none, clearIf p.autoClear buffer)
  else
    match pcaEval p ((buffer.map (fun f => f.landmark_centroid)).filterMap id) with
    | .noClear => (none, buffer)
    | .rejected => (none, clearIf p.autoClear buffer)
    | .classified label confidence label_index probabilities =>
        (some { label := label
                confidence := confidence
                start_time := (buffer.headD sampleFrame).timestamp
                end_time := (buffer.getLastD sampleFrame).timestamp
                label_index := label_index
                probabilities := probabilities },
          clearIf p.autoClear buffer)

/-- Constructor parameters of `MLBufferProcessor` (source defaults). -/
structure MLParams where
  confidenceThreshold : ℚ := 65 / 100
  expectedLandmarkCount : Nat := 21
  autoClear : Bool := true
deriving DecidableEq, Repr

/-- Model of `MLBufferProcessor.update` (ml_buffer_processor.py lines 30-71; the
superseded `buffer_processor.py` has the identical body), parametrized
over the external trained-model capabilities `predict`, `predict_proba`
and the label decoder `inverse_transform`.  Python's `max(probabilities)`
is modelled with `max?` (the external capability returns a non-empty
probability distribution). -/
def mlUpdate (predict : List ℚ → Nat) (predictProba : List ℚ → List ℚ)
    (inverseTransform : Nat → String) (p : MLParams) (maxSize : Nat)
    (buffer : List BufferFrame) :
    Option DynamicGestureDetection × List BufferFrame :=
  if buffer.length < maxSize then (none, buffer)
  else if buffer.isEmpty then (none, buffer)
  else if buffer.any (fun f => f.landmarks.length != p.expectedLandmarkCount) then
    (none, clearIf p.autoClear buffer)
  else
    let feature_vector := buffer.flatMap (fun f =>
      (f.landmarks.mergeSort (fun a b => decide (a.id ≤ b.id))).flatMap
        (fun lm => [lm.x, lm.y]))
    let prediction := predict feature_vector
    let probabilities := predictProba feature_vector
    let confidence := (probabilities.max?).getD 0
    let cleared := clearIf p.autoClear buffer
    if confidence < p.confidenceThreshold then (none, cleared)
    else
      let label := inverseTransform prediction
      if label = "NONE" then (none, cleared)
      else
        (some { label := label
                confidence := confidence
                start_time := (buffer.headD sampleFrame).timestamp
                end_time := (buffer.getLastD sampleFrame).timestamp
                label_index := prediction
                probabilities := probabilities },
          cleared)

lemma length_filterMap_id_of_no_none {α : Type} (os : List (Option α))
    (h : os.any Option.isNone = false) :
    (os.filterMap id).length = os.length := by
  induction os with
  | nil => rfl
  | cons o os ih =>
      rcases o with _ | a
      · simp at h
      · simp only [List.any_cons, Bool.or_eq_false_iff] at h
        simp [ih h.2]

lemma pcaEval_ne_noClear (p : PCAParams) (centroids : List (ℚ × ℚ))
    (h2 : 2 ≤ centroids.length) : pcaEval p centroids ≠ .noClear := by
  intro h
  have hc : ¬ ((centroids.length : ℤ) - 1 ≤ 0) := by
    omega
  unfold pcaEval at h
  rw [if_neg hc] at h
  split_ifs at h

/-- C2 counterexample: a `PCABufferProcessor` over a capacity-1 buffer,
with the default `auto_clear = True`, called at the full-window
precondition (`size() = maxSize() = 1`), returns with the buffer still
non-empty: the `len(frames) < 2` early return does not clear. -/
theorem pca_update_full_window_not_cleared :
    [sampleFrame].length = 1 ∧ ({} : PCAParams).autoClear = true ∧
      (pcaUpdate {} 1 [sampleFrame]).2 ≠ [] := by
  refine ⟨rfl, rfl, ?_⟩
  decide

/-- C2 amended: for every `update()` call (PCA or ML) made with
`auto_clear` enabled when the buffer size equals `maxSize()`, the buffer
is empty on return regardless of outcome, provided `maxSize() ≥ 2` for
the PCA processor (its `len(frames) < 2` early return does not clear)
and `maxSize() ≥ 1` for the ML processor. -/
theorem buffer_cleared_after_full_update :
    (∀ (p : PCAParams) (maxSize : Nat) (buffer : List BufferFrame),
        p.autoClear = true → buffer.length = maxSize → 2 ≤ maxSize →
        (pcaUpdate p maxSize buffer).2 = []) ∧
      (∀ (predict : List ℚ → Nat) (predictProba : List ℚ → List ℚ)
          (inverseTransform : Nat → String) (p : MLParams) (maxSize : Nat)
          (buffer : List BufferFrame),
        p.autoClear = true → buffer.length = maxSize → 1 ≤ maxSize →
        (mlUpdate predict predictProba inverseTransform p maxSize buffer).2
          = []) := by
  constructor
  · intro p maxSize buffer hclear hsz h2
    unfold pcaUpdate
    have hn1 : ¬ buffer.length < maxSize := by omega
    have hn2 : ¬ buffer.length < 2 := by omega
    rw [if_neg hn1, if_neg hn2]
    by_cases hany : (buffer.map (fun f => f.landmark_centroid)).any Option.isNone
    · rw [if_pos hany]
      simp [clearIf, hclear]
    · rw [if_neg hany]
      have hlen :
          ((buffer.map (fun f => f.landmark_centroid)).filterMap id).length
            = buffer.length := by
        rw [length_filterMap_id_of_no_none _ (by simpa using hany)]
        simp
      have hne := pcaEval_ne_noClear p
        ((buffer.map (fun f => f.landmark_centroid)).filterMap id)
        (by omega)
      rcases hres : pcaEval p
          ((buffer.map (fun f => f.landmark_centroid)).filterMap id) with
        _ | _ | ⟨label, confidence, label_index, probabilities⟩
      · exact absurd hres hne
      · rw [hres]
        simp [clearIf, hclear]
      · rw [hres]
        simp [clearIf, hclear]
  · intro predict predictProba inverseTransform p maxSize buffer hclear hsz h1
    unfold mlUpdate
    have hn1 : ¬ buffer.length < maxSize := by omega
    have hn2 : buffer.isEmpty = false := by
      rcases buffer with _ | _
      · simp at hsz; omega
      · rfl
    rw [if_neg hn1, hn2]
    simp only [Bool.false_eq_true, if_false]
    split_ifs <;> simp [clearIf, hclear]

/-- Witness for C2's amended theorem: a full capacity-2 PCA window of
identical centroids is rejected and cleared, and a full capacity-1 ML
window with a wrong landmark count is rejected and cleared. -/
theorem buffer_cleared_after_full_update_witness :
    (pcaUpdate {} 2 [sampleFrame, sampleFrame]).2 = [] ∧
      (mlUpdate (fun _ => 0) (fun _ => []) (fun _ => "NONE") {} 1
        [sampleFrame]).2 = [] :=
  ⟨buffer_cleared_after_full_update.1 {} 2 [sampleFrame, sampleFrame]
      rfl rfl (by decide),
    buffer_cleared_after_full_update.2 (fun _ => 0) (fun _ => [])
      (fun _ => "NONE") {} 1 [sampleFrame] rfl rfl (by decide)⟩

lemma mkProbs_one (c : ℚ) : mkProbs c 1 = [1 - c, c, 0, 0, 0] := rfl

lemma mkProbs_two (c : ℚ) : mkProbs c 2 = [1 - c, 0, c, 0, 0] := rfl

lemma mkProbs_three (c : ℚ) : mkProbs c 3 = [1 - c, 0, 0, c, 0] := rfl

lemma mkProbs_four (c : ℚ) : mkProbs c 4 = [1 - c, 0, 0, 0, c] := rfl

lemma pcaChosenLabel_cases (centroids : List (ℚ × ℚ)) :
    pcaChosenLabel centroids = "SWIPE_RIGHT" ∨
      pcaChosenLabel centroids = "SWIPE_LEFT" ∨
      pcaChosenLabel centroids = "SWIPE_DOWN" ∨
      pcaChosenLabel centroids = "SWIPE_UP" := by
  unfold pcaChosenLabel
  split_ifs <;> simp

lemma pcaChosenLabel_index (centroids : List (ℚ × ℚ)) :
    1 ≤ pcaLabelIndex (pcaChosenLabel centroids) ∧
      pcaLabelIndex (pcaChosenLabel centroids) ≤ 4 ∧
      pcaChosenLabel centroids ≠ "NONE" := by
  rcases pcaChosenLabel_cases centroids with hl | hl | hl | hl <;>
    rw [hl] <;> exact ⟨by decide, by decide, by decide⟩

lemma mkProbs_facts (c : ℚ) (i : Nat) (h1 : 1 ≤ i) (h4 : i ≤ 4) :
    (mkProbs c i).length = 5 ∧ (mkProbs c i).getD 0 0 = 1 - c ∧
      (mkProbs c i).getD i 0 = c ∧ (mkProbs c i).sum = 1 := by
  interval_cases i <;>
    refine ⟨rfl, rfl, rfl, ?_⟩ <;>
    · simp [mkProbs_one, mkProbs_two, mkProbs_three, mkProbs_four]
      try ring

/-- C9: every detection returned by `PCABufferProcessor.update` carries
one of the four swipe labels (never "NONE"), a confidence in
`[linearity_threshold, 1]` (for a threshold within `[0, 1]`, as the
default 0.85 is), a `label_index` equal to the label's position in the
fixed label tuple (hence in 1..4), and a 5-entry probability vector
with `1 - confidence` at index 0, `confidence` at `label_index`, zeros
elsewhere (the `mkProbs` shape), summing to 1. -/
theorem pca_detection_shape (p : PCAParams) (maxSize : Nat)
    (buffer : List BufferFrame) (d : DynamicGestureDetection)
    (buffer' : List BufferFrame)
    (hth1 : p.linearityThreshold ≤ 1)
    (h : pcaUpdate p maxSize buffer = (some d, buffer')) :
    (d.label = "SWIPE_LEFT" ∨ d.label = "SWIPE_RIGHT" ∨
        d.label = "SWIPE_UP" ∨ d.label = "SWIPE_DOWN") ∧
      d.label ≠ "NONE" ∧
      p.linearityThreshold ≤ d.confidence ∧ d.confidence ≤ 1 ∧
      d.label_index = pcaLabelIndex d.label ∧
      1 ≤ d.label_index ∧ d.label_index ≤ 4 ∧
      d.probabilities = mkProbs d.confidence d.label_index ∧
      d.probabilities.length = 5 ∧
      d.probabilities.getD 0 0 = 1 - d.confidence ∧
      d.probabilities.getD d.label_index 0 = d.confidence ∧
      d.probabilities.sum = 1 := by
  unfold pcaUpdate at h
  split_ifs at h
  · exact absurd h (by simp)
  · exact absurd h (by simp)
  · exact absurd h (by simp)
  · rcases hres : pcaEval p
        ((buffer.map (fun f => f.landmark_centroid)).filterMap id) with
      _ | _ | ⟨label, conf, idx, probs⟩
    · rw [hres] at h
      exact absurd h (by simp)
    · rw [hres] at h
      exact absurd h (by simp)
    · rw [hres] at h
      simp only [Prod.mk.injEq, Option.some.injEq] at h
      obtain ⟨hd, _⟩ := h
      subst hd
      set cs := (buffer.map (fun f => f.landmark_centroid)).filterMap id
        with hcs
      unfold pcaEval at hres
      split_ifs at hres with hg1 hg2 hg3 hg4
      simp only [PCAStep.classified.injEq] at hres
      obtain ⟨hlab, hconf, hidx, hprobs⟩ := hres
      have hlin : p.linearityThreshold ≤ pcaLinearity cs := not_lt.mp hg2
      have hcl : p.linearityThreshold ≤ pcaConfidence cs :=
        le_max_of_le_right (le_min hth1 hlin)
      have hcu : pcaConfidence cs ≤ 1 :=
        max_le (by norm_num) (min_le_left 1 _)
      subst hlab hconf hidx hprobs
      obtain ⟨hi1, hi4, hnone⟩ := pcaChosenLabel_index cs
      obtain ⟨hl5, hg0, hgi, hsum⟩ :=
        mkProbs_facts (pcaConfidence cs) (pcaLabelIndex (pcaChosenLabel cs))
          hi1 hi4
      have hmem : pcaChosenLabel cs = "SWIPE_LEFT" ∨
          pcaChosenLabel cs = "SWIPE_RIGHT" ∨
          pcaChosenLabel cs = "SWIPE_UP" ∨
          pcaChosenLabel cs = "SWIPE_DOWN" := by
        rcases pcaChosenLabel_cases cs with h' | h' | h' | h' <;> simp [h']
      exact ⟨hmem, hnone, hcl, hcu, rfl, hi1, hi4, rfl, hl5, hg0, hgi, hsum⟩

lemma sum_map_mul_zip_zero (as bs : List ℚ) (h : ∀ b ∈ bs, b = 0) :
    ((as.zip bs).map (fun c => c.1 * c.2)).sum = 0 := by
  induction as generalizing bs with
  | nil => simp
  | cons a as ih =>
      rcases bs with _ | ⟨b, bs⟩
      · simp
      · have hb : b = 0 := h b (by simp)
        have hrest : ∀ x ∈ bs, x = 0 := fun x hx => h x (by simp [hx])
        simp [hb, ih bs hrest]

lemma sum_sq_pos (l : List ℚ) (x0 : ℚ) (hx0 : x0 ∈ l) (hne : x0 ≠ 0) :
    0 < (l.map (fun x => x * x)).sum := by
  have hmem : x0 * x0 ∈ l.map (fun x => x * x) := List.mem_map_of_mem _ hx0
  have hnonneg : ∀ y ∈ l.map (fun x => x * x), 0 ≤ y := by
    intro y hy
    obtain ⟨x, _, rfl⟩ := List.mem_map.mp hy
    exact mul_self_nonneg x
  have hle := List.single_le_sum hnonneg _ hmem
  have hpos : 0 < x0 * x0 := mul_self_pos.mpr hne
  linarith

lemma headD_map_pair (l : List ℚ) (c : ℚ) (h : l ≠ []) :
    (l.map (fun x => (x, c))).headD ((0 : ℚ), (0 : ℚ)) = (l.headD 0, c) := by
  rw [List.headD_eq_head?, List.headD_eq_head?, List.head?_map,
    List.head?_eq_head h]
  rfl

lemma getLastD_map_pair (l : List ℚ) (c : ℚ) (h : l ≠ []) :
    (l.map (fun x => (x, c))).getLastD ((0 : ℚ), (0 : ℚ))
      = (l.getLastD 0, c) := by
  rw [List.getLastD_eq_getLast?, List.getLastD_eq_getLast?, List.getLast?_map,
    List.getLast?_eq_getLast l h]
  rfl

lemma pcaEval_swipe_right (p : PCAParams) (xsl : List ℚ) (c : ℚ)
    (h2 : 2 ≤ xsl.length)
    (hdisp : p.minDisplacement ≤ xsl.getLastD 0 - xsl.headD 0)
    (hmin : 0 < p.minDisplacement)
    (hth : p.linearityThreshold ≤ 1) :
    pcaEval p (xsl.map (fun x => (x, c)))
      = .classified "SWIPE_RIGHT" 1 2 (mkProbs 1 2) := by
  set cs := xsl.map (fun x => (x, c)) with hcsdef
  have hne : xsl ≠ [] := by
    intro h
    rw [h] at h2
    simp at h2
  have hlen : cs.length = xsl.length := by simp [hcsdef]
  have hxs : pcaXs cs = xsl := by
    simp [pcaXs, hcsdef, List.map_map, Function.comp_def]
  have hys : pcaYs cs = xsl.map (fun _ => c) := by
    simp [pcaYs, hcsdef, List.map_map, Function.comp_def, List.map_const']
  have hnq : (0 : ℚ) < (cs.length : ℚ) := by
    have : 2 ≤ cs.length := hlen ▸ h2
    exact_mod_cast Nat.lt_of_lt_of_le (by norm_num) this
  have hsumy : (xsl.map (fun _ => c)).sum = (xsl.length : ℚ) * c := by
    simp [List.map_const', List.sum_replicate, nsmul_eq_mul]
  have hmy : pcaMeanY cs = c := by
    unfold pcaMeanY
    rw [hys, hsumy, hlen]
    field_simp
  have hcy : pcaCenteredY cs = xsl.map (fun _ => (0 : ℚ)) := by
    unfold pcaCenteredY
    rw [hys, hmy, List.map_map]
    simp [Function.comp_def, List.map_const']
  have hcovyy : pcaCovYY cs = 0 := by
    unfold pcaCovYY
    rw [hcy, List.map_map]
    have h00 : (List.map ((fun cy => cy * cy) ∘ fun _ => (0 : ℚ)) xsl).sum
        = 0 := by
      simp [Function.comp_def, List.map_const', List.sum_replicate]
    rw [h00, zero_div]
  have hz : ∀ b ∈ xsl.map (fun _ => (0 : ℚ)), b = 0 := by
    intro b hb
    obtain ⟨x, _, hbx⟩ := List.mem_map.mp hb
    simpa using hbx.symm
  have hcovxy : pcaCovXY cs = 0 := by
    unfold pcaCovXY
    rw [hcy, sum_map_mul_zip_zero _ _ hz]
    simp
  have hhead : cs.headD (0, 0) = (xsl.headD 0, c) := headD_map_pair xsl c hne
  have hlast : cs.getLastD (0, 0) = (xsl.getLastD 0, c) :=
    getLastD_map_pair xsl c hne
  have hdx : pcaDeltaX cs = xsl.getLastD 0 - xsl.headD 0 := by
    unfold pcaDeltaX
    rw [hhead, hlast]
  have hdy : pcaDeltaY cs = 0 := by
    unfold pcaDeltaY
    rw [hhead, hlast]
    simp
  have hdxpos : 0 < pcaDeltaX cs := by
    rw [hdx]
    linarith
  have hx0 : ∃ x ∈ xsl, x ≠ pcaMeanX cs := by
    by_contra hall
    push_neg at hall
    have hh : xsl.headD 0 ∈ xsl := by
      rw [List.headD_eq_head?, List.head?_eq_head hne]
      exact List.head_mem hne
    have hg : xsl.getLastD 0 ∈ xsl := by
      rw [List.getLastD_eq_getLast?, List.getLast?_eq_getLast xsl hne]
      exact List.getLast_mem hne
    have h1 := hall _ hh
    have h2' := hall _ hg
    rw [hdx] at hdxpos
    rw [h1, h2'] at hdxpos
    simp at hdxpos
  have hS : 0 < ((pcaCenteredX cs).map (fun cx => cx * cx)).sum := by
    obtain ⟨x0, hx0mem, hx0ne⟩ := hx0
    have hmem : x0 - pcaMeanX cs ∈ pcaCenteredX cs := by
      unfold pcaCenteredX
      rw [hxs]
      exact List.mem_map_of_mem _ hx0mem
    exact sum_sq_pos _ _ hmem (sub_ne_zero.mpr hx0ne)
  have hdenpos : 0 < pcaDenominator cs := by
    unfold pcaDenominator
    have : (2 : ℚ) ≤ (cs.length : ℚ) := by exact_mod_cast hlen ▸ h2
    linarith
  have hcovxx : 0 < pcaCovXX cs := div_pos hS hdenpos
  have htr : pcaTrace cs = pcaCovXX cs := by
    unfold pcaTrace
    rw [hcovyy]
    ring
  have hdet : pcaDeterminant cs = 0 := by
    unfold pcaDeterminant
    rw [hcovyy, hcovxy]
    ring
  have hdisc : pcaDiscriminant cs = pcaTrace cs * pcaTrace cs := by
    unfold pcaDiscriminant
    rw [hdet]
    have h0 : pcaTrace cs * pcaTrace cs - 4 * 0 = pcaTrace cs * pcaTrace cs := by
      ring
    rw [h0, max_eq_left (mul_self_nonneg _)]
  have hroot : pcaRootTerm cs = pcaCovXX cs := by
    unfold pcaRootTerm
    rw [hdisc, htr]
    exact ratSqrt_mul_self (le_of_lt hcovxx)
  have hprim : pcaPrimary cs = pcaCovXX cs := by
    unfold pcaPrimary
    rw [htr, hroot]
    ring
  have hsec : pcaSecondary cs = 0 := by
    unfold pcaSecondary
    rw [htr, hroot]
    ring
  have htv : pcaTotalVariance cs = pcaCovXX cs := by
    unfold pcaTotalVariance
    rw [hprim, hsec]
    ring
  have hlin : pcaLinearity cs = 1 := by
    unfold pcaLinearity
    rw [htv, hprim, if_pos hcovxx]
    field_simp
  have hev : pcaEigenvector cs = (1, 0) := by
    unfold pcaEigenvector
    rw [hcovxy, hcovyy]
    rw [if_neg (by norm_num), if_pos (le_of_lt hcovxx)]
  have hnorm : pcaNorm cs = 1 := by
    unfold pcaNorm
    rw [hev]
    show ratHypot 1 0 = 1
    unfold ratHypot
    norm_num [ratSqrt_one]
  have hdispl : pcaDisplacement cs = pcaDeltaX cs := by
    unfold pcaDisplacement
    rw [hdy]
    unfold ratHypot
    have h0 : pcaDeltaX cs * pcaDeltaX cs + 0 * 0
        = pcaDeltaX cs * pcaDeltaX cs := by ring
    rw [h0]
    exact ratSqrt_mul_self (le_of_lt hdxpos)
  have hor : pcaOriented cs = (1, 0) := by
    have hcond : ¬ ((pcaEigenvector cs).1 / pcaNorm cs * pcaDeltaX cs
        + (pcaEigenvector cs).2 / pcaNorm cs * pcaDeltaY cs < 0) := by
      rw [hev, hnorm, hdy]
      simp only [not_lt]
      norm_num
      exact le_of_lt hdxpos
    unfold pcaOriented
    rw [if_neg hcond, hev, hnorm]
    norm_num
  have hlabel : pcaChosenLabel cs = "SWIPE_RIGHT" := by
    unfold pcaChosenLabel
    rw [hor]
    norm_num
  have hconf : pcaConfidence cs = 1 := by
    unfold pcaConfidence
    rw [hlin]
    norm_num
  unfold pcaEval
  have hg1 : ¬ ((cs.length : ℤ) - 1 ≤ 0) := by
    have : 2 ≤ cs.length := hlen ▸ h2
    omega
  rw [if_neg hg1, hlin, if_neg (not_lt.mpr hth), hnorm,
    if_neg (one_ne_zero), hdispl, if_neg (not_lt.mpr (hdx ▸ hdisp)),
    hlabel, hconf]
  have hidx2 : pcaLabelIndex "SWIPE_RIGHT" = 2 := by decide
  rw [hidx2]

/-- C4: for every full window of frames whose centroids lie on a
horizontal line (zero y-variance, rendered as second coordinate
constantly `c`), with monotonically non-decreasing x-coordinates and
net displacement at least `min_displacement` (itself positive, as the
default 0.2 is), `PCABufferProcessor.update` returns a detection
labeled SWIPE_RIGHT with confidence 1 — in particular at least
`linearity_threshold` (for any threshold ≤ 1, as the default 0.85
is). -/
theorem pca_swipe_right (p : PCAParams) (maxSize : Nat)
    (buffer : List BufferFrame) (xsl : List ℚ) (c : ℚ)
    (hbc : buffer.map (fun f => f.landmark_centroid)
      = (xsl.map (fun x => (x, c))).map some)
    (hlen : buffer.length = maxSize)
    (h2 : 2 ≤ maxSize)
    (_hmono : xsl.Pairwise (· ≤ ·))
    (hdisp : p.minDisplacement ≤ xsl.getLastD 0 - xsl.headD 0)
    (hmin : 0 < p.minDisplacement)
    (hth : p.linearityThreshold ≤ 1) :
    ∃ d, (pcaUpdate p maxSize buffer).1 = some d ∧
      d.label = "SWIPE_RIGHT" ∧ d.confidence = 1 ∧
      p.linearityThreshold ≤ d.confidence := by
  have hxlen : xsl.length = maxSize := by
    have h := congrArg List.length hbc
    simp at h
    omega
  unfold pcaUpdate
  have hn1 : ¬ buffer.length < maxSize := by omega
  have hn2 : ¬ buffer.length < 2 := by omega
  rw [if_neg hn1, if_neg hn2]
  have hany : (buffer.map (fun f => f.landmark_centroid)).any Option.isNone
      = false := by
    rw [hbc]
    simp
  rw [hany]
  simp only [Bool.false_eq_true, if_false]
  have hcs : (buffer.map (fun f => f.landmark_centroid)).filterMap id
      = xsl.map (fun x => (x, c)) := by
    rw [hbc]
    simp
  rw [hcs, pcaEval_swipe_right p xsl c (by omega) hdisp hmin hth]
  exact ⟨_, rfl, rfl, rfl, by simpa using hth⟩

/-- The spec's end-to-end swipe-right x-coordinates
`0, 0.03, ..., 0.27`. -/
def swipeRightXs : List ℚ :=
  [0, 3/100, 6/100, 9/100, 12/100, 15/100, 18/100, 21/100, 24/100, 27/100]

/-- The spec's end-to-end scenario centroids
`(0,0), (0.03,0), ..., (0.27,0)`. -/
def swipeRightCentroids : List (ℚ × ℚ) := swipeRightXs.map (fun x => (x, 0))

/-- A capacity-10 buffer holding the end-to-end scenario frames. -/
def swipeRightBuffer : List BufferFrame :=
  swipeRightCentroids.map (fun c =>
    { landmarks := []
      landmark_centroid := some c
      timestamp := 0
      static_gesture := ("", 0) })

section
/- The Batteries rational-number operations are `@[irreducible]`, which
blocks `decide`-style evaluation of the embedding on concrete
rationals; re-enable unfolding locally for the concrete witnesses. -/
attribute [local semireducible] Rat.mul Rat.add Rat.sub Rat.inv

/-- Witness for C4 at the spec's concrete end-to-end scenario: buffer
capacity 10, centroids `(0,0), (0.03,0), ..., (0.27,0)`, default
parameters. -/
theorem pca_swipe_right_witness :
    ∃ d, (pcaUpdate {} 10 swipeRightBuffer).1 = some d ∧
      d.label = "SWIPE_RIGHT" ∧ d.confidence = 1 ∧
      ({} : PCAParams).linearityThreshold ≤ d.confidence :=
  pca_swipe_right {} 10 swipeRightBuffer swipeRightXs 0
    rfl rfl (by decide) (by decide) (by decide) (by decide) (by decide)

/-- The detection which the PCA processor produces on the end-to-end
swipe-right scenario. -/
def swipeRightDetection : DynamicGestureDetection :=
  { label := "SWIPE_RIGHT"
    confidence := 1
    start_time := 0
    end_time := 0
    label_index := 2
    probabilities := [0, 0, 1, 0, 0] }

/-- Witness for C9 at the concrete swipe-right scenario detection. -/
theorem pca_detection_shape_witness :
    (swipeRightDetection.label = "SWIPE_LEFT" ∨
        swipeRightDetection.label = "SWIPE_RIGHT" ∨
        swipeRightDetection.label = "SWIPE_UP" ∨
        swipeRightDetection.label = "SWIPE_DOWN") ∧
      swipeRightDetection.label ≠ "NONE" ∧
      ({} : PCAParams).linearityThreshold ≤ swipeRightDetection.confidence ∧
      swipeRightDetection.confidence ≤ 1 ∧
      swipeRightDetection.label_index
        = pcaLabelIndex swipeRightDetection.label ∧
      1 ≤ swipeRightDetection.label_index ∧
      swipeRightDetection.label_index ≤ 4 ∧
      swipeRightDetection.probabilities
        = mkProbs swipeRightDetection.confidence
            swipeRightDetection.label_index ∧
      swipeRightDetection.probabilities.length = 5 ∧
      swipeRightDetection.probabilities.getD 0 0
        = 1 - swipeRightDetection.confidence ∧
      swipeRightDetection.probabilities.getD
          swipeRightDetection.label_index 0
        = swipeRightDetection.confidence ∧
      swipeRightDetection.probabilities.sum = 1 :=
  pca_detection_shape {} 10 swipeRightBuffer swipeRightDetection []
    (by decide)
    (by
      unfold pcaUpdate
      rw [if_neg (by decide : ¬ swipeRightBuffer.length < 10),
        if_neg (by decide : ¬ swipeRightBuffer.length < 2)]
      rw [show (swipeRightBuffer.map (fun f => f.landmark_centroid)).any
          Option.isNone = false from rfl]
      simp only [Bool.false_eq_true, if_false]
      rw [show (swipeRightBuffer.map
            (fun f => f.landmark_centroid)).filterMap id
          = swipeRightXs.map (fun x => (x, 0)) from rfl]
      rw [pcaEval_swipe_right {} swipeRightXs 0 (by decide) (by decide)
        (by decide) (by decide)]
      rfl)

end

/-- The per-frame mutable state of `GesturePipeline.run`
(detector_pipeline.py lines 102-104): the landmark buffer (a
`LandmarkBuffer()` of the default capacity 10), `dynamic_hold`,
`frames_since_dynamic_eval` and `dynamic_overlay`.  The frame type is a
parameter: the hold/debounce control flow never inspects frame
contents. -/
structure PipeState (α : Type) where
  buffer : List α
  dynamic_hold : Nat
  frames_since_eval : Nat
  dynamic_overlay : Option (String × ℚ)
deriving DecidableEq

/-- What one loop iteration did: whether the frame was enqueued,
whether the dynamic processor's `update()` was called, and the
detection it returned (always `none` when not called). -/
structure StepTrace where
  enqueued : Bool
  updateCalled : Bool
  detection : Option DynamicGestureDetection
deriving DecidableEq

/-- Lines 150-154: enqueue the frame and bump the eval counter only
while `dynamic_hold == 0`; while holding, reset the counter to 0.
Returns (buffer, counter, frame-was-enqueued). -/
def pipelineBufferPhase {α : Type} (s : PipeState α) (frame : α) :
    List α × Nat × Bool :=
  if s.dynamic_hold = 0 then
    (LandmarkBuffer.enqueueStep 10 s.buffer frame, s.frames_since_eval + 1,
      true)
  else (s.buffer, 0, false)

/-- Lines 168-171: call the processor's `update()` when not holding and
the counter has reached `eval_interval`, resetting the counter.
Returns (detection, buffer, counter, update-was-called). -/
def pipelineEvalPhase {α : Type}
    (update : List α → Option DynamicGestureDetection × List α)
    (evalInterval : Nat) (hold : Nat) (buffer : List α) (since : Nat) :
    Option DynamicGestureDetection × List α × Nat × Bool :=
  if hold = 0 ∧ evalInterval ≤ since then
    ((update buffer).1, (update buffer).2, 0, true)
  else (none, buffer, since, false)

/-- Lines 172-186: on a detection, enter (or clear) the hold state; with
no detection this frame, decrement a positive hold, clearing the
overlay and resetting the counter when it reaches 0. -/
def pipelineResolve {α : Type} (holdFrames : Nat) (s : PipeState α)
    (det : Option DynamicGestureDetection) (buffer : List α) (since : Nat) :
    PipeState α :=
  match det with
  | some d =>
      if d.label ≠ "NONE" then
        { buffer := buffer, dynamic_hold := holdFrames,
          frames_since_eval := 0,
          dynamic_overlay := some (d.label, d.confidence) }
      else
        { buffer := buffer, dynamic_hold := 0, frames_since_eval := since,
          dynamic_overlay := none }
  | none =>
      if 0 < s.dynamic_hold then
        if s.dynamic_hold - 1 = 0 then
          { buffer := buffer, dynamic_hold := 0, frames_since_eval := 0,
            dynamic_overlay := none }
        else
          { buffer := buffer, dynamic_hold := s.dynamic_hold - 1,
            frames_since_eval := since,
            dynamic_overlay := s.dynamic_overlay }
      else
        { buffer := buffer, dynamic_hold := 0, frames_since_eval := since,
          dynamic_overlay := s.dynamic_overlay }

/-- One iteration of the `while` loop of `GesturePipeline.run`
(lines 150-186), abstracting the processor's `update()` as a function
of the buffer (the source wires `BufferProcessor.update`, which reads
and mutates the shared buffer). -/
def pipelineStep {α : Type}
    (update : List α → Option DynamicGestureDetection × List α)
    (holdFrames evalInterval : Nat) (s : PipeState α) (frame : α) :
    PipeState α × StepTrace :=
  let bp := pipelineBufferPhase s frame
  let ep := pipelineEvalPhase update evalInterval s.dynamic_hold bp.1 bp.2.1
  (pipelineResolve holdFrames s ep.1 ep.2.1 ep.2.2.1,
    { enqueued := bp.2.2, updateCalled := ep.2.2.2, detection := ep.1 })

/-- The loop run over a list of incoming frames, collecting traces. -/
def pipelineRun {α : Type}
    (update : List α → Option DynamicGestureDetection × List α)
    (holdFrames evalInterval : Nat) (s : PipeState α) :
    List α → PipeState α × List StepTrace
  | [] => (s, [])
  | f :: fs =>
      let r := pipelineStep update holdFrames evalInterval s f
      let rest := pipelineRun update holdFrames evalInterval r.1 fs
      (rest.1, r.2 :: rest.2)

lemma pipelineStep_hold_pos {α : Type}
    (update : List α → Option DynamicGestureDetection × List α)
    (holdFrames evalInterval : Nat) (s : PipeState α) (frame : α)
    (h : s.dynamic_hold ≠ 0) :
    pipelineStep update holdFrames evalInterval s frame
      = ({ buffer := s.buffer, dynamic_hold := s.dynamic_hold - 1,
            frames_since_eval := 0,
            dynamic_overlay := if s.dynamic_hold - 1 = 0 then none
              else s.dynamic_overlay },
          { enqueued := false, updateCalled := false, detection := none }) := by
  by_cases h0 : s.dynamic_hold - 1 = 0 <;>
    simp [pipelineStep, pipelineBufferPhase, pipelineEvalPhase,
      pipelineResolve, h, h0, Nat.pos_of_ne_zero h]

lemma pipelineStep_resume {α : Type}
    (update : List α → Option DynamicGestureDetection × List α)
    (holdFrames evalInterval : Nat) (s : PipeState α) (frame : α)
    (h : s.dynamic_hold = 0) (hlt : s.frames_since_eval + 1 < evalInterval) :
    pipelineStep update holdFrames evalInterval s frame
      = ({ buffer := LandmarkBuffer.enqueueStep 10 s.buffer frame,
            dynamic_hold := 0,
            frames_since_eval := s.frames_since_eval + 1,
            dynamic_overlay := s.dynamic_overlay },
          { enqueued := true, updateCalled := false, detection := none }) := by
  have hn : ¬ evalInterval ≤ s.frames_since_eval + 1 := by omega
  simp [pipelineStep, pipelineBufferPhase, pipelineEvalPhase,
    pipelineResolve, h, hn]

lemma pipelineStep_eval_called {α : Type}
    (update : List α → Option DynamicGestureDetection × List α)
    (holdFrames evalInterval : Nat) (s : PipeState α) (frame : α)
    (h : s.dynamic_hold = 0) (hge : evalInterval ≤ s.frames_since_eval + 1) :
    (pipelineStep update holdFrames evalInterval s frame).2.updateCalled
      = true := by
  simp [pipelineStep, pipelineBufferPhase, pipelineEvalPhase, h, hge]

lemma pipelineRun_cons {α : Type}
    (update : List α → Option DynamicGestureDetection × List α)
    (holdFrames evalInterval : Nat) (s : PipeState α) (f : α) (fs : List α) :
    pipelineRun update holdFrames evalInterval s (f :: fs)
      = ((pipelineRun update holdFrames evalInterval
            (pipelineStep update holdFrames evalInterval s f).1 fs).1,
          (pipelineStep update holdFrames evalInterval s f).2
            :: (pipelineRun update holdFrames evalInterval
                  (pipelineStep update holdFrames evalInterval s f).1 fs).2) :=
  rfl

lemma pipelineRun_hold {α : Type}
    (update : List α → Option DynamicGestureDetection × List α)
    (holdFrames evalInterval : Nat) :
    ∀ (fs : List α) (s : PipeState α),
      s.frames_since_eval = 0 → fs.length ≤ s.dynamic_hold →
      (pipelineRun update holdFrames evalInterval s fs).2.all
          (fun tr => !tr.enqueued && !tr.updateCalled
            && tr.detection.isNone) = true ∧
        (pipelineRun update holdFrames evalInterval s fs).1.buffer
          = s.buffer ∧
        (pipelineRun update holdFrames evalInterval s fs).1.dynamic_hold
          = s.dynamic_hold - fs.length ∧
        (pipelineRun update holdFrames evalInterval s fs).1.frames_since_eval
          = 0 := by
  intro fs
  induction fs with
  | nil =>
      intro s h0 _
      simp [pipelineRun, h0]
  | cons f fs ih =>
      intro s h0 hle
      have hne : s.dynamic_hold ≠ 0 := by
        simp only [List.length_cons] at hle
        omega
      have hstep := pipelineStep_hold_pos update holdFrames evalInterval s f hne
      rw [pipelineRun_cons, hstep]
      obtain ⟨ha, hb, hh, hc⟩ := ih
        { buffer := s.buffer, dynamic_hold := s.dynamic_hold - 1,
          frames_since_eval := 0,
          dynamic_overlay := if s.dynamic_hold - 1 = 0 then none
            else s.dynamic_overlay }
        rfl
        (by
          simp only [List.length_cons] at hle
          simp only
          omega)
      refine ⟨?_, hb, ?_, hc⟩
      · simp [List.all_cons, ha]
      · rw [hh]
        simp only [List.length_cons]
        omega

lemma pipelineRun_resume {α : Type}
    (update : List α → Option DynamicGestureDetection × List α)
    (holdFrames evalInterval : Nat) :
    ∀ (fs : List α) (s : PipeState α),
      s.dynamic_hold = 0 → s.frames_since_eval + fs.length < evalInterval →
      (pipelineRun update holdFrames evalInterval s fs).2.all
          (fun tr => tr.enqueued && !tr.updateCalled) = true ∧
        (pipelineRun update holdFrames evalInterval s fs).1.dynamic_hold
          = 0 ∧
        (pipelineRun update holdFrames evalInterval s fs).1.frames_since_eval
          = s.frames_since_eval + fs.length := by
  intro fs
  induction fs with
  | nil =>
      intro s h0 _
      simp [pipelineRun, h0]
  | cons f fs ih =>
      intro s h0 hlt
      have hlt1 : s.frames_since_eval + 1 < evalInterval := by
        simp only [List.length_cons] at hlt
        omega
      have hstep := pipelineStep_resume update holdFrames evalInterval s f
        h0 hlt1
      rw [pipelineRun_cons, hstep]
      obtain ⟨ha, hh, hc⟩ := ih
        { buffer := LandmarkBuffer.enqueueStep 10 s.buffer f,
          dynamic_hold := 0,
          frames_since_eval := s.frames_since_eval + 1,
          dynamic_overlay := s.dynamic_overlay }
        rfl
        (by
          simp only [List.length_cons] at hlt
          simp only
          omega)
      refine ⟨?_, hh, ?_⟩
      · simp [List.all_cons, ha]
      · rw [hc]
        simp only [List.length_cons]
        omega

/-- C3: in the pipeline loop, (a) a frame whose `update()` returned a
detection with label ≠ "NONE" leaves the loop with
`dynamic_hold = hold_frames` and the eval counter at 0; (b) for any
following frames while the hold is positive, no frame is enqueued, no
`update()` call occurs, no detection is emitted, the buffer is
unchanged, the eval counter is held at 0, and the hold decreases by one
per frame (reaching 0 after exactly `hold_frames` frames); (c) once the
hold is 0 buffering resumes (every frame enqueued) with no `update()`
call for the first `eval_interval - 1` frames, and the `eval_interval`-th
frame calls `update()` again — the `eval_interval` schedule.  The
source clamps `eval_interval = max(1, dynamic_eval_interval)` ≥ 1 at
construction. -/
theorem pipeline_hold_debounce {α : Type}
    (update : List α → Option DynamicGestureDetection × List α)
    (holdFrames evalInterval : Nat) :
    (∀ (s s' : PipeState α) (f : α) (tr : StepTrace)
        (d : DynamicGestureDetection),
        pipelineStep update holdFrames evalInterval s f = (s', tr) →
        tr.detection = some d → d.label ≠ "NONE" →
        s'.dynamic_hold = holdFrames ∧ s'.frames_since_eval = 0) ∧
      (∀ (s : PipeState α) (fs : List α),
        s.frames_since_eval = 0 → fs.length ≤ s.dynamic_hold →
        (pipelineRun update holdFrames evalInterval s fs).2.all
            (fun tr => !tr.enqueued && !tr.updateCalled
              && tr.detection.isNone) = true ∧
          (pipelineRun update holdFrames evalInterval s fs).1.buffer
            = s.buffer ∧
          (pipelineRun update holdFrames evalInterval s fs).1.dynamic_hold
            = s.dynamic_hold - fs.length ∧
          (pipelineRun update holdFrames
              evalInterval s fs).1.frames_since_eval = 0) ∧
      (∀ (s : PipeState α) (fs : List α),
        s.dynamic_hold = 0 → s.frames_since_eval = 0 →
        fs.length < evalInterval →
        (pipelineRun update holdFrames evalInterval s fs).2.all
            (fun tr => tr.enqueued && !tr.updateCalled) = true ∧
          (pipelineRun update holdFrames evalInterval s fs).1.dynamic_hold
            = 0 ∧
          (pipelineRun update holdFrames
              evalInterval s fs).1.frames_since_eval = fs.length) ∧
      (∀ (s : PipeState α) (fs : List α) (f : α),
        s.dynamic_hold = 0 → s.frames_since_eval = 0 →
        1 ≤ evalInterval → fs.length = evalInterval - 1 →
        (pipelineStep update holdFrames evalInterval
            (pipelineRun update holdFrames evalInterval s fs).1
            f).2.updateCalled = true) := by
  refine ⟨?_, ?_, ?_, ?_⟩
  · intro s s' f tr d hstep hdet hlab
    have h1 : pipelineResolve holdFrames s
        (pipelineEvalPhase update evalInterval s.dynamic_hold
          (pipelineBufferPhase s f).1 (pipelineBufferPhase s f).2.1).1
        (pipelineEvalPhase update evalInterval s.dynamic_hold
          (pipelineBufferPhase s f).1 (pipelineBufferPhase s f).2.1).2.1
        (pipelineEvalPhase update evalInterval s.dynamic_hold
          (pipelineBufferPhase s f).1 (pipelineBufferPhase s f).2.1).2.2.1
        = s' := congrArg Prod.fst hstep
    have h2 : (pipelineEvalPhase update evalInterval s.dynamic_hold
        (pipelineBufferPhase s f).1 (pipelineBufferPhase s f).2.1).1
        = some d := by
      have h3 := congrArg (fun p => p.2.detection) hstep
      simpa [hdet] using h3
    rw [h2] at h1
    rw [← h1]
    simp [pipelineResolve, hlab]
  · intro s fs h0 hle
    exact pipelineRun_hold update holdFrames evalInterval fs s h0 hle
  · intro s fs h0 hc0 hlt
    obtain ⟨ha, hh, hcnt⟩ := pipelineRun_resume update holdFrames
      evalInterval fs s h0 (by omega)
    exact ⟨ha, hh, by rw [hcnt, hc0]; omega⟩
  · intro s fs f h0 hc0 hE hlen
    obtain ⟨ha, hh, hcnt⟩ := pipelineRun_resume update holdFrames
      evalInterval fs s h0 (by omega)
    exact pipelineStep_eval_called update holdFrames evalInterval _ f hh
      (by rw [hcnt, hc0]; omega)

/-- A concrete non-NONE detection for exercising the pipeline model. -/
def demoDetection : DynamicGestureDetection :=
  { label := "SWIPE_LEFT"
    confidence := 9 / 10
    start_time := 0
    end_time := 0
    label_index := 1
    probabilities := [1 / 10, 9 / 10, 0, 0, 0] }

/-- A concrete processor that always detects `demoDetection` and clears
the buffer. -/
def demoUpdate : List ℚ → Option DynamicGestureDetection × List ℚ :=
  fun _ => (some demoDetection, [])

/-- Pipeline state just before a detection frame: not holding, counter
at 2 (one short of the eval interval 3). -/
def demoStart : PipeState ℚ :=
  { buffer := [1, 2], dynamic_hold := 0, frames_since_eval := 2,
    dynamic_overlay := none }

/-- The state `demoStart` reaches after the detection frame. -/
def demoHoldState : PipeState ℚ :=
  { buffer := [], dynamic_hold := 10, frames_since_eval := 0,
    dynamic_overlay := some ("SWIPE_LEFT", 9 / 10) }

/-- The trace of the detection frame. -/
def demoTrace : StepTrace :=
  { enqueued := true, updateCalled := true, detection := some demoDetection }

/-- A concrete not-holding state with counter 0. -/
def demoZeroState : PipeState ℚ :=
  { buffer := [], dynamic_hold := 0, frames_since_eval := 0,
    dynamic_overlay := none }

/-- Witness for C3 at concrete data: hold frames 10, eval interval 3,
a detection frame entering the hold, three held frames, two resumed
frames, and the third resumed frame calling `update()` again. -/
theorem pipeline_hold_debounce_witness :
    (demoHoldState.dynamic_hold = 10 ∧
        demoHoldState.frames_since_eval = 0) ∧
      ((pipelineRun demoUpdate 10 3 demoHoldState [7, 8, 9]).2.all
          (fun tr => !tr.enqueued && !tr.updateCalled
            && tr.detection.isNone) = true ∧
        (pipelineRun demoUpdate 10 3 demoHoldState [7, 8, 9]).1.buffer
          = demoHoldState.buffer ∧
        (pipelineRun demoUpdate 10 3 demoHoldState [7, 8, 9]).1.dynamic_hold
          = demoHoldState.dynamic_hold - [(7 : ℚ), 8, 9].length ∧
        (pipelineRun demoUpdate 10 3
            demoHoldState [7, 8, 9]).1.frames_since_eval = 0) ∧
      ((pipelineRun demoUpdate 10 3 demoZeroState [4, 5]).2.all
          (fun tr => tr.enqueued && !tr.updateCalled) = true ∧
        (pipelineRun demoUpdate 10 3 demoZeroState [4, 5]).1.dynamic_hold
          = 0 ∧
        (pipelineRun demoUpdate 10 3
            demoZeroState [4, 5]).1.frames_since_eval
          = [(4 : ℚ), 5].length) ∧
      (pipelineStep demoUpdate 10 3
          (pipelineRun demoUpdate 10 3 demoZeroState [4, 5]).1
          6).2.updateCalled = true :=
  ⟨(pipeline_hold_debounce demoUpdate 10 3).1 demoStart demoHoldState 3
      demoTrace demoDetection rfl rfl (by decide),
    (pipeline_hold_debounce demoUpdate 10 3).2.1 demoHoldState [7, 8, 9]
      rfl (by decide),
    (pipeline_hold_debounce demoUpdate 10 3).2.2.1 demoZeroState [4, 5]
      rfl rfl (by decide),
    (pipeline_hold_debounce demoUpdate 10 3).2.2.2 demoZeroState [4, 5] 6
      rfl rfl (by decide) (by decide)⟩

/-- A client connection handle as seen by the manager: an identity and
whether its channel is already closed. -/
structure Client where
  id : Nat
  closed : Bool
deriving DecidableEq, Repr

/-- Model of `ConnectionManager` (manager.py): the live client set, modelled as
the snapshot list that `list(self.clients)` iterates. -/
structure ConnectionManager where
  clients : List Client
deriving DecidableEq, Repr

/-- Model of `websocket.send` on the channel: sending on a closed connection
raises `ConnectionClosed` (the only failure mode at this interface),
an open one delivers the message. -/
def sendMessage (c : Client) (msg : String) : Except PyErr String :=
  if c.closed then .error .connectionClosed else .ok msg

/-- Model of `ConnectionManager.broadcast` (manager.py lines 39-57): early
return on an empty set; fan-out over a snapshot of the client set,
catching `ConnectionClosed` per client and collecting those clients as
stale; after the fan-out completes, discard the stale clients under the
lock.  Returns the manager state on return and the deliveries
(client id, message) in fan-out order; the function is total — the only
send failure is caught, so `broadcast` never raises. -/
def broadcast (m : ConnectionManager) (msg : String) :
    ConnectionManager × List (Nat × String) :=
  if m.clients = [] then (m, [])
  else
    let fanout := m.clients.foldl (fun acc c =>
      match sendMessage c msg with
      | .ok _ => (acc.1 ++ [(c.id, msg)], acc.2)
      | .error _ => (acc.1, acc.2 ++ [c])) ([], [])
    ({ clients := m.clients.filter (fun c => decide (c ∉ fanout.2)) },
      fanout.1)

lemma broadcast_foldl (cls : List Client) (msg : String)
    (acc : List (Nat × String) × List Client) :
    cls.foldl (fun acc c =>
        match sendMessage c msg with
        | .ok _ => (acc.1 ++ [(c.id, msg)], acc.2)
        | .error _ => (acc.1, acc.2 ++ [c])) acc
      = (acc.1 ++ (cls.filter (fun c => !c.closed)).map
            (fun c => (c.id, msg)),
          acc.2 ++ cls.filter (fun c => c.closed)) := by
  induction cls generalizing acc with
  | nil => simp
  | cons c cls ih =>
      rw [List.foldl_cons]
      by_cases hc : c.closed
      · have hsend : sendMessage c msg = .error .connectionClosed := by
          simp [sendMessage, hc]
        simp only [hsend]
        rw [ih]
        simp [hc]
      · have hsend : sendMessage c msg = .ok msg := by
          simp [sendMessage, hc]
        simp only [hsend]
        rw [ih]
        simp [hc]

/-- C5: `broadcast` delivers the message to exactly the open
connections of the snapshot, in order — so a closed connection in the
middle does not stop delivery to the remaining ones — and the live set
afterwards is the snapshot minus exactly the connections whose send
failed; on an empty set both sides are trivially empty (no-op).
`broadcast` is a total function: the only send failure,
`ConnectionClosed`, is caught per connection. -/
theorem broadcast_delivers_and_prunes (m : ConnectionManager)
    (msg : String) :
    (broadcast m msg).2
        = (m.clients.filter (fun c => !c.closed)).map
            (fun c => (c.id, msg)) ∧
      (broadcast m msg).1.clients
        = m.clients.filter (fun c => !c.closed) := by
  by_cases hempty : m.clients = []
  · simp [broadcast, hempty]
  · unfold broadcast
    rw [if_neg hempty]
    rw [broadcast_foldl]
    constructor
    · simp
    · simp only
      apply List.filter_congr
      intro c hc
      by_cases hcl : c.closed
      · have hmem : c ∈ [] ++ m.clients.filter (fun c => c.closed) := by
          simp [List.mem_filter, hc, hcl]
        simp [hmem, hcl, hc]
      · have hmem : c ∉ [] ++ m.clients.filter (fun c => c.closed) := by
          simp [List.mem_filter, hcl]
        simp [hmem, hcl, hc]

/-- Server-side throttle state for static gestures
(server.py lines 42-43). -/
structure ServerState where
  lastStaticGesture : Option String
  lastStaticTime : ℚ
deriving DecidableEq, Repr

/-- The gesture payload scheduled for broadcast
(backend/models.py `GesturePayload`; the timestamp default is omitted
as wall-clock). -/
structure GesturePayload where
  gesture : String
  confidence : ℚ
deriving DecidableEq, Repr

/-- Model of `GestureWebSocketServer._handle_dynamic_gesture`
(server.py lines 176-186): drop "NONE" detections, otherwise schedule
a broadcast of the payload (`none` = no broadcast scheduled). -/
def handle_dynamic_gesture (detection : DynamicGestureDetection) :
    Option GesturePayload :=
  if detection.label = "NONE" then none
  else some { gesture := detection.label,
              confidence := detection.confidence }

/-- Model of `GestureWebSocketServer._handle_static_gesture`
(server.py lines 188-205): drop "NONE" first, then throttle a repeat of
the same label within `STATIC_REBROADCAST_INTERVAL = 2.0` seconds,
otherwise record the label/time and schedule the broadcast. -/
def handle_static_gesture (st : ServerState) (gesture : String)
    (confidence : ℚ) (now : ℚ) : ServerState × Option GesturePayload :=
  if gesture = "NONE" then (st, none)
  else if st.lastStaticGesture = some gesture
      ∧ now - st.lastStaticTime < 2 then (st, none)
  else ({ lastStaticGesture := some gesture, lastStaticTime := now },
    some { gesture := gesture, confidence := confidence })

/-- C10: neither bridge callback ever forwards a gesture labeled
"NONE": the dynamic handler schedules no broadcast for it (whatever the
confidence), and the static handler returns, with its throttle state
untouched, before the throttle logic runs (whatever the throttle state
or time). -/
theorem none_label_never_forwarded :
    (∀ (d : DynamicGestureDetection), d.label = "NONE" →
        handle_dynamic_gesture d = none) ∧
      (∀ (st : ServerState) (confidence now : ℚ),
        handle_static_gesture st "NONE" confidence now = (st, none)) := by
  constructor
  · intro d h
    simp [handle_dynamic_gesture, h]
  · intro st confidence now
    simp [handle_static_gesture]

/-- Witness for C10: a concrete "NONE" detection is dropped by both
handlers. -/
theorem none_label_never_forwarded_witness :
    handle_dynamic_gesture
        { label := "NONE", confidence := 1, start_time := 0, end_time := 0,
          label_index := 0, probabilities := [1, 0, 0, 0, 0] } = none ∧
      handle_static_gesture
          { lastStaticGesture := some "PALM", lastStaticTime := 5 }
          "NONE" 1 6
        = ({ lastStaticGesture := some "PALM", lastStaticTime := 5 },
            none) :=
  ⟨none_label_never_forwarded.1
      { label := "NONE", confidence := 1, start_time := 0, end_time := 0,
        label_index := 0, probabilities := [1, 0, 0, 0, 0] } rfl,
    none_label_never_forwarded.2
      { lastStaticGesture := some "PALM", lastStaticTime := 5 } 1 6⟩

/-- The two registered classification strategies. -/
inductive BufferProcessorKind where
  | pca
  | ml
deriving DecidableEq, Repr

/-- Modelled from the spec: the registry behind
`create_buffer_processor`.  The function is imported and called by
`src/detection/hand_tracking/test.py` (lines 5 and 19-24) but its
definition is missing from the sources (`modules/buffer_processor.py`
does not define it); per spec §4.4 the registry is a name-to-factory
mapping over `"pca"` and `"ml"`. -/
def bufferProcessorRegistry : List (String × BufferProcessorKind) :=
  [("pca", .pca), ("ml", .ml)]

/-- The names of the registered strategies, as listed in the
unknown-name error. -/
def availableStrategyNames : String :=
  String.intercalate ", " (bufferProcessorRegistry.map Prod.fst)

/-- Modelled from the spec (§4.4): resolve a classification strategy by
name at construction time; an unknown name is a hard construction-time
error naming the available registered strategies. -/
def create_buffer_processor (name : String) :
    Except String BufferProcessorKind :=
  match bufferProcessorRegistry.lookup name with
  | some kind => .ok kind
  | none => .error ("Unknown buffer processor strategy: " ++ name
      ++ " (available: " ++ availableStrategyNames ++ ")")

/-- C7: resolving `"pca"` and `"ml"` through the registry succeeds with
the corresponding strategy, and every name outside the registry fails
at construction time with an error that names the available registered
strategies. -/
theorem create_buffer_processor_registry :
    create_buffer_processor "pca" = .ok .pca ∧
      create_buffer_processor "ml" = .ok .ml ∧
      ∀ name, bufferProcessorRegistry.lookup name = none →
        create_buffer_processor name
          = .error ("Unknown buffer processor strategy: " ++ name
              ++ " (available: " ++ availableStrategyNames ++ ")") := by
  refine ⟨rfl, rfl, ?_⟩
  intro name h
  unfold create_buffer_processor
  rw [h]

/-- Witness for C7 at the unknown name "kalman". -/
theorem create_buffer_processor_registry_witness :
    create_buffer_processor "kalman"
      = .error ("Unknown buffer processor strategy: " ++ "kalman"
          ++ " (available: " ++ availableStrategyNames ++ ")") :=
  create_buffer_processor_registry.2.2 "kalman" rfl

/-- Model of the `GesturePipeline.run` frame construction (detector_pipeline.py
lines 145-149): `LandmarkFrame(landmarks=..., timestamp=...,
static_gesture=static_prediction if static_prediction else ("", 0.0))`;
no centroid is computed or stored anywhere in the loop. -/
def pipelineFrame (landmarks : List Landmark) (now : ℚ)
    (staticPrediction : Option (String × ℚ)) : LandmarkFrame :=
  { landmarks := landmarks
    timestamp := now
    static_gesture := staticPrediction.getD ("", 0) }

/-- Python attribute access `frame.landmark_centroid` on
`classes.LandmarkFrame`: the dataclass declares only `landmarks`,
`timestamp` and `static_gesture` (classes.py lines 12-16), so the
lookup raises `AttributeError` on every instance. -/
def landmarkCentroidAttr (_ : LandmarkFrame) : Except PyErr (ℚ × ℚ) :=
  .error .attributeError

/-- C6 (code bug): the pipeline loop stores no centroid on the frames
it enqueues — `classes.LandmarkFrame` has no `landmark_centroid` field
at all — so the PCA classifier's per-frame centroid read raises
`AttributeError` on every pipeline-produced frame instead of being
`None` exactly when the frame had no landmarks (and `test.py`'s
`LandmarkFrame(..., landmark_centroid=...)` call raises `TypeError`
against this dataclass, confirming the spec's reading as the
intent). -/
theorem pipeline_frame_has_no_centroid (landmarks : List Landmark)
    (now : ℚ) (staticPrediction : Option (String × ℚ)) :
    landmarkCentroidAttr (pipelineFrame landmarks now staticPrediction)
      = .error .attributeError := rfl
